import Mathlib

/-!
Verification of the `yoots` utility library against its specification.

The development shallowly embeds the Python sources:

* `yoots/moratorium.py` — day-of-year ("Julian date") calendar arithmetic and
  the holiday table (`make_day_julian`, `get_nth_day`, `holidays`,
  `is_holiday`, `is_eoy`).
* `yoots/textfile.py` — the `TextFile` multi-format read/write wrapper
  (`__init__` format resolution, `read`, `write`, `confirm_yn_n`, and the
  per-format readers/writers).

Python values flowing through `TextFile` are modelled by the inductive
`PyVal`; Python dicts are modelled as insertion-ordered association
structures (`PyDict`).  File-system and console effects are made explicit:
the file at the handle's path is an `Option String` (content when the file
exists), standard input is a `List String` of replies, and raising an
exception is an `Except Err` result.
-/

set_option autoImplicit false

namespace Yoots

/-! ## Calendar arithmetic (`yoots/moratorium.py`)

`time.strftime("%j", t)` is the day-of-year of the date held by `t`, and
`time.strftime("%A", t)` its capitalized English weekday name.  We model
dates by their proleptic-Gregorian components `(year, month, day)`.
-/

/-- Gregorian leap-year rule, as implemented by Python's `time` module. -/
def isLeap (y : Nat) : Bool :=
  (y % 4 == 0 && y % 100 != 0) || y % 400 == 0

/-- Number of days in a month (`0` for an invalid month number). -/
def daysInMonth (y m : Nat) : Nat :=
  match m with
  | 1 => 31
  | 2 => if isLeap y then 29 else 28
  | 3 => 31
  | 4 => 30
  | 5 => 31
  | 6 => 30
  | 7 => 31
  | 8 => 31
  | 9 => 30
  | 10 => 31
  | 11 => 30
  | 12 => 31
  | _ => 0

/-- `(year, month, day)` is a real calendar date. -/
def validDate (y m d : Nat) : Prop :=
  1 ≤ m ∧ m ≤ 12 ∧ 1 ≤ d ∧ d ≤ daysInMonth y m

instance (y m d : Nat) : Decidable (validDate y m d) := by
  unfold validDate; infer_instance

/-- Day-of-year (`%j`): 1 for January 1, up to 365/366 for December 31. -/
def dayOfYear (y m d : Nat) : Nat :=
  (((List.range' 1 (m - 1)).map (fun k => daysInMonth y k)).sum) + d

/-- Days elapsed from the proleptic-Gregorian epoch: day 1 is 0001-01-01. -/
def totalDays (y m d : Nat) : Nat :=
  365 * (y - 1) + ((y - 1) / 4 - (y - 1) / 100) + (y - 1) / 400 + dayOfYear y m d

/-- Weekday index of a date: 0 = Sunday, 1 = Monday, ..., 6 = Saturday
(0001-01-01 is a Monday in the proleptic Gregorian calendar). -/
def dayOfWeek (y m d : Nat) : Nat :=
  totalDays y m d % 7

/-- `%A`: full capitalized weekday name for a weekday index. -/
def dayName (w : Nat) : String :=
  match w with
  | 0 => "Sunday"
  | 1 => "Monday"
  | 2 => "Tuesday"
  | 3 => "Wednesday"
  | 4 => "Thursday"
  | 5 => "Friday"
  | _ => "Saturday"

/-- `make_day_julian`: day-of-year of the ISO date with components
`y-m-d` (the source parses the `"YYYY-MM-DD"` string with `strptime` and
formats with `"%j"`; we take the three components directly). -/
def make_day_julian (y m d : Nat) : Nat :=
  dayOfYear y m d

/-- `get_nth_day`: day-of-year of the nth occurrence of the named weekday in
a month.  The source tries days 1..31, skipping the `ValueError` raised for
day numbers past the end of the month, and indexes the matched list with
`[-1]` for `n = -1` and `[n-1]` otherwise; an out-of-range index
(`IndexError`) is modelled by `none`. -/
def get_nth_day (day_name : String) (n : Int) (year month : Nat) : Option Nat :=
  let days_matched :=
    (List.range' 1 31).filterMap (fun d =>
      if d ≤ daysInMonth year month then
        if dayName (dayOfWeek year month d) = day_name then
          some (dayOfYear year month d)
        else none
      else none)
  if n = -1 then days_matched.getLast?
  else days_matched.get? (n - 1).toNat

/-- String whose single character is the apostrophe. -/
def apos : String :=
  String.singleton (Char.ofNat 39)

/-- The module-level `holidays` table, computed for a given `this_year`
(the source computes it once at import time from the wall clock).  Each
entry built from `get_nth_day` is an `Option Nat`; in Python the import
would fail if any lookup raised. -/
def holidays (this_year : Nat) : List (String × Option Nat) :=
  [("New Year" ++ apos ++ "s Day", some (make_day_julian this_year 1 1)),
   ("Martin Luther King Jr Day", get_nth_day "Monday" 3 this_year 1),
   ("Presidents Day", get_nth_day "Monday" 3 this_year 2),
   ("Memorial Day", get_nth_day "Monday" (-1) this_year 5),
   ("Independence Day", some (make_day_julian this_year 7 4)),
   ("Labor Day", get_nth_day "Monday" 1 this_year 9),
   ("Thanksgiving", get_nth_day "Thursday" 4 this_year 11),
   ("Thanksgiving Friday", (get_nth_day "Thursday" 4 this_year 11).map (· + 1)),
   ("Christmas", some (make_day_julian this_year 12 25))]

/-- `is_holiday`: the day-of-year of the argument date (`%j` of the time
tuple, hence computed in the date's own year) is tested for membership in
`holidays.values()` — the table built for `this_year`. -/
def is_holiday (this_year y m d : Nat) : Bool :=
  let today := dayOfYear y m d
  (holidays this_year).any (fun p => p.2 == some today)

/-- `is_eoy`: true when the date's day-of-year is at least
`holidays["Thanksgiving"]` (see `holidays_lookup_thanksgiving`). -/
def is_eoy (this_year y m d : Nat) : Option Bool :=
  (get_nth_day "Thursday" 4 this_year 11).map
    (fun thx => decide (thx ≤ dayOfYear y m d))

/-! ## Python values (`yoots/textfile.py` payloads)

`PyVal` models the Python values handled by `TextFile`: `None`, booleans,
integers, strings, lists and string-keyed dicts.  Dicts are modelled as
insertion-ordered association structures, the iteration order of `keys()`
and `items()`.  (Floats and non-string dict keys are not exercised by the
specification and are left out of the model.)
-/

mutual

inductive PyVal : Type where
  | none : PyVal
  | bool (b : Bool) : PyVal
  | int (n : Int) : PyVal
  | str (s : String) : PyVal
  | list (xs : PyList) : PyVal
  | dict (kvs : PyDict) : PyVal
  deriving DecidableEq

inductive PyList : Type where
  | nil : PyList
  | cons (v : PyVal) (tl : PyList) : PyList
  deriving DecidableEq

inductive PyDict : Type where
  | nil : PyDict
  | cons (k : String) (v : PyVal) (tl : PyDict) : PyDict
  deriving DecidableEq

end

/-- Build a `PyList` from a Lean list. -/
def PyList.ofList : List PyVal → PyList
  | [] => .nil
  | v :: tl => .cons v (PyList.ofList tl)

/-- Build a `PyDict` from a Lean association list. -/
def PyDict.ofList : List (String × PyVal) → PyDict
  | [] => .nil
  | (k, v) :: tl => .cons k v (PyDict.ofList tl)

/-- `dict.keys()`, in insertion order. -/
def PyDict.keys : PyDict → List String
  | .nil => []
  | .cons k _ tl => k :: PyDict.keys tl

/-- `dict.get(k)`: value of the first binding of `k`, if any. -/
def PyDict.lookup : PyDict → String → Option PyVal
  | .nil, _ => none
  | .cons k v tl, key => if k = key then some v else PyDict.lookup tl key

mutual

/-- Python `repr` of a value (string escaping inside `repr` of a string is
elided; no theorem depends on it). -/
def pyRepr : PyVal → String
  | .none => "None"
  | .bool b => if b then "True" else "False"
  | .int n => toString n
  | .str s => apos ++ s ++ apos
  | .list xs => "[" ++ pyReprList xs ++ "]"
  | .dict kvs => "\x7b" ++ pyReprDict kvs ++ "\x7d"

def pyReprList : PyList → String
  | .nil => ""
  | .cons v .nil => pyRepr v
  | .cons v tl => pyRepr v ++ ", " ++ pyReprList tl

def pyReprDict : PyDict → String
  | .nil => ""
  | .cons k v .nil => apos ++ k ++ apos ++ ": " ++ pyRepr v
  | .cons k v tl => apos ++ k ++ apos ++ ": " ++ pyRepr v ++ ", " ++ pyReprDict tl

end

/-- Python `str` of a value: the string itself for strings, `repr`
otherwise. -/
def pyStr (v : PyVal) : String :=
  match v with
  | .str s => s
  | _ => pyRepr v

/-! ## CSV (`read_csv` / `write_csv`)

The Python code delegates to the standard `csv` module with
`lineterminator='\n'` and default dialect: fields are comma-separated,
minimally quoted (a field is wrapped in double quotes, with embedded
quotes doubled, exactly when it contains a comma, a quote or a newline),
and each row ends in a single newline.
-/

/-- A written CSV cell: `None` (the `DictWriter` rest value) becomes the
empty cell, other values are written via `str`. -/
def cellStr : Option PyVal → String
  | Option.none => ""
  | some PyVal.none => ""
  | some v => pyStr v

/-- Minimal quoting of one field. -/
def csvEscape (s : String) : String :=
  if s.data.any (fun c => c == ',' || c == '"' || c == '\n') then
    "\"" ++ String.join (s.data.map (fun c =>
      if c == '"' then "\"\"" else String.singleton c)) ++ "\""
  else s

/-- One CSV row (without its terminating newline). -/
def csvLine (fields : List String) : String :=
  String.intercalate "," (fields.map csvEscape)

/-- Character-level CSV parser (the `csv.reader` side).  Arguments: input,
inside-quotes flag, current field, current row (reversed), finished rows
(reversed).  A blank line yields no row, matching `csv.reader` emitting `[]`
there and `DictReader` skipping empty rows. -/
def csvParseAux : List Char → Bool → String → List String → List (List String) →
    List (List String)
  | [], _, field, row, rows =>
    if field = "" ∧ row = [] then rows.reverse
    else (((field :: row).reverse) :: rows).reverse
  | '"' :: '"' :: rest, true, field, row, rows =>
    csvParseAux rest true (field.push '"') row rows
  | '"' :: rest, true, field, row, rows => csvParseAux rest false field row rows
  | c :: rest, true, field, row, rows => csvParseAux rest true (field.push c) row rows
  | c :: rest, false, field, row, rows =>
    if c = ',' then csvParseAux rest false "" (field :: row) rows
    else if c = '\n' then
      if field = "" ∧ row = [] then csvParseAux rest false "" [] rows
      else csvParseAux rest false "" [] (((field :: row).reverse) :: rows)
    else if c = '"' ∧ field = "" then csvParseAux rest true field row rows
    else csvParseAux rest false (field.push c) row rows

/-- Parse CSV file content into rows of fields. -/
def csvParse (content : String) : List (List String) :=
  csvParseAux content.data false "" [] []

/-- `read_csv`: `csv.DictReader` — the first row gives the field names and
every later row becomes one record keyed by them (`zip` semantics). -/
def read_csv (content : String) : List (List (String × String)) :=
  match csvParse content with
  | [] => []
  | header :: rows => rows.map (fun r => header.zip r)

/-! The exceptions `TextFile` operations can raise. -/

inductive Err : Type where
  /-- A failed `assert`, with its message. -/
  | assertionError (msg : String) : Err
  /-- Reading an attribute that was never assigned (`self.ftype`). -/
  | attributeError : Err
  /-- Indexing an empty list (`fdata[0]`). -/
  | indexError : Err
  /-- `ValueError`, with its message. -/
  | valueError (msg : String) : Err
  deriving DecidableEq

instance exceptDecEq {ε α : Type} [DecidableEq ε] [DecidableEq α] :
    DecidableEq (Except ε α) := fun x y =>
  match x, y with
  | .ok a, .ok b =>
    if h : a = b then isTrue (by rw [h])
    else isFalse (fun he => by cases he; exact h rfl)
  | .error a, .error b =>
    if h : a = b then isTrue (by rw [h])
    else isFalse (fun he => by cases he; exact h rfl)
  | .ok _, .error _ => isFalse (fun he => by cases he)
  | .error _, .ok _ => isFalse (fun he => by cases he)

/-- `csv.DictWriter._dict_to_list` with the default `extrasaction='raise'`
and `restval=None`: a record holding a key outside `fieldnames` raises
`ValueError`; keys missing from a record produce the rest value. -/
def dict_to_list (fieldnames : List String) (r : PyDict) : Except Err (List String) :=
  let wrong_fields := r.keys.filter (fun k => !(fieldnames.contains k))
  if wrong_fields.isEmpty then
    .ok (fieldnames.map (fun k => cellStr (r.lookup k)))
  else
    .error (.valueError ("dict contains fields not in fieldnames: " ++
      String.intercalate ", " wrong_fields))

/-- `writer.writerows`: serialize each record in order, stopping at the
first failing record. -/
def rowsToCsv (fieldnames : List String) : PyList → Except Err String
  | .nil => .ok ""
  | .cons r tl =>
    match r with
    | .dict kvs =>
      match dict_to_list fieldnames kvs with
      | .error e => .error e
      | .ok cells => (rowsToCsv fieldnames tl).map (fun s => csvLine cells ++ "\n" ++ s)
    | _ => .error .attributeError

/-- `write_csv`: data must be a list (`AssertionError` otherwise) whose
first element — `IndexError` when the list is empty — is a dict
(`AssertionError` otherwise); the first record's keys become the header and
`writeheader`/`writerows` produce the file content. -/
def write_csv (fdata : PyVal) : Except Err String :=
  match fdata with
  | .list rows =>
    match rows with
    | .nil => .error .indexError
    | .cons first _ =>
      match first with
      | .dict kvs =>
        let fieldnames := kvs.keys
        (rowsToCsv fieldnames rows).map (fun body => csvLine fieldnames ++ "\n" ++ body)
      | _ => .error (.assertionError "Each list element must be a dictionary.")
  | _ => .error (.assertionError "Input data must be a list.")

/-! ## INI (`read_ini` / `write_ini`)

`configparser` itself is an external library: its parse of the file into
section/key/value-string triples is taken as an input
(`List (String × List (String × String))`), and `ast.literal_eval` — which
the source calls on every value, falling back to the original string when
it raises `SyntaxError` or `ValueError` — is a function argument `lit`,
with `none` standing for such a failure. -/

/-- The per-value best-effort coercion inside `read_ini`'s loop. -/
def coerceValue (lit : String → Option PyVal) (value : String) : PyVal :=
  match lit value with
  | some v => v
  | Option.none => .str value

/-- `read_ini`: every section's every value is passed through
`ast.literal_eval` (`lit`), keeping the original string on failure.  The
function is total: no coercion failure escapes. -/
def read_ini (lit : String → Option PyVal)
    (sections : List (String × List (String × String))) :
    List (String × List (String × PyVal)) :=
  sections.map (fun sk => (sk.1, sk.2.map (fun kv => (kv.1, coerceValue lit kv.2))))

/-- Render one section's `key = value` lines (`configparser.write`,
values already stringified by `str` in `write_ini`). -/
def iniItems : PyDict → String
  | .nil => ""
  | .cons k v tl => k ++ " = " ++ pyStr v ++ "\n" ++ iniItems tl

/-- Render all sections; a non-dict section value fails like
`section_dict.items()` on a non-dict. -/
def iniSections : PyDict → Except Err String
  | .nil => .ok ""
  | .cons sec sv tl =>
    match sv with
    | .dict kvs =>
      (iniSections tl).map (fun rest => "[" ++ sec ++ "]\n" ++ iniItems kvs ++ "\n" ++ rest)
    | _ => .error .attributeError

/-- `write_ini`: data must be a dict of dicts; every value is written via
`str(value)`. -/
def write_ini (fdata : PyVal) : Except Err String :=
  match fdata with
  | .dict sections => iniSections sections
  | _ => .error (.assertionError "Input data must be a dictionary.")

/-! ## JSON / YAML / text writers

These model `json.dump(fdata, outfile, indent=2)`,
`yaml.dump(fdata, default_flow_style=False)` and `outfile.write(str(fdata))`.
No theorem depends on the exact rendered text, only on the write happening
(and its byte count being the content's size). -/

/-- `n` spaces. -/
def spaces (n : Nat) : String :=
  String.mk (List.replicate n ' ')

mutual

/-- `json.dumps` with `indent=2` (string escaping elided). -/
def jsonDump (ind : Nat) : PyVal → String
  | .none => "null"
  | .bool b => if b then "true" else "false"
  | .int n => toString n
  | .str s => "\"" ++ s ++ "\""
  | .list .nil => "[]"
  | .list xs => "[\n" ++ jsonDumpList (ind + 2) xs ++ "\n" ++ spaces ind ++ "]"
  | .dict .nil => "\x7b\x7d"
  | .dict kvs => "\x7b\n" ++ jsonDumpDict (ind + 2) kvs ++ "\n" ++ spaces ind ++ "\x7d"

def jsonDumpList (ind : Nat) : PyList → String
  | .nil => ""
  | .cons v .nil => spaces ind ++ jsonDump ind v
  | .cons v tl => spaces ind ++ jsonDump ind v ++ ",\n" ++ jsonDumpList ind tl

def jsonDumpDict (ind : Nat) : PyDict → String
  | .nil => ""
  | .cons k v .nil => spaces ind ++ "\"" ++ k ++ "\": " ++ jsonDump ind v
  | .cons k v tl =>
    spaces ind ++ "\"" ++ k ++ "\": " ++ jsonDump ind v ++ ",\n" ++ jsonDumpDict ind tl

end

/-- Scalar rendering for the YAML emitter. -/
def yamlScalar : PyVal → String
  | .none => "null"
  | .bool b => if b then "true" else "false"
  | .int n => toString n
  | .str s => s
  | _ => ""

mutual

/-- Block-style YAML emission (`default_flow_style=False`); nested
sequences are simplified to scalar rendering, which no theorem relies on. -/
def yamlDumpVal (ind : Nat) : PyVal → String
  | .dict kvs => yamlDumpMap ind kvs
  | .list xs => yamlDumpSeq ind xs
  | v => spaces ind ++ yamlScalar v ++ "\n"

def yamlDumpMap (ind : Nat) : PyDict → String
  | .nil => ""
  | .cons k v tl =>
    (match v with
     | .dict kvs2 => spaces ind ++ k ++ ":\n" ++ yamlDumpMap (ind + 2) kvs2
     | .list xs2 => spaces ind ++ k ++ ":\n" ++ yamlDumpSeq (ind + 2) xs2
     | sc => spaces ind ++ k ++ ": " ++ yamlScalar sc ++ "\n") ++ yamlDumpMap ind tl

def yamlDumpSeq (ind : Nat) : PyList → String
  | .nil => ""
  | .cons v tl => spaces ind ++ "- " ++ yamlScalar v ++ "\n" ++ yamlDumpSeq ind tl

end

/-- `write_yaml` content. -/
def yamlDump (fdata : PyVal) : String :=
  yamlDumpVal 0 fdata

/-! ## External parsers

The read-side external libraries (`json.load`, `yaml.load`, `configparser`
file parsing, `ast.literal_eval`): the theorems quantify over their
behavior. -/

structure ExtLibs : Type where
  /-- `json.load` on the file content. -/
  jsonLoad : String → Except Err PyVal
  /-- `yaml.load` on the file content. -/
  yamlLoad : String → Except Err PyVal
  /-- `configparser`: file content to section/key/value-string triples. -/
  iniParse : String → List (String × List (String × String))
  /-- `ast.literal_eval`; `none` models `SyntaxError`/`ValueError`. -/
  litEval : String → Option PyVal

/-! ## `TextFile.__init__` — format resolution -/

/-- The extension part of `os.path.splitext` (including its leading dot):
the rightmost dot of the part after the last `/`, provided some non-dot
character precedes it in that basename. -/
def extScan : List Char → Bool → List Char → List Char
  | [], _, best => best
  | c :: rest, seen, best =>
    if c = '.' then
      if seen then extScan rest seen (c :: rest) else extScan rest seen best
    else extScan rest true best

/-- `os.path.splitext(fname)[-1]`. -/
def splitextExt (fname : String) : String :=
  let base := ((fname.data.reverse.takeWhile (fun c => c != '/')).reverse)
  String.mk (extScan base false [])

/-- ASCII lowering of one character (`str.lower` on extension text). -/
def lowerChar (c : Char) : Char :=
  if 'A' ≤ c ∧ c ≤ 'Z' then Char.ofNat (c.toNat + 32) else c

/-- `str.lower()`. -/
def lowerString (s : String) : String :=
  String.mk (s.data.map lowerChar)

/-- Python's `str.strip('.')`: remove leading and trailing dots. -/
def stripDots (s : String) : String :=
  String.mk (((s.data.dropWhile (fun c => c == '.')).reverse.dropWhile
    (fun c => c == '.')).reverse)

/-- `TextFile.__init__`.  With `ftype=None` the format is the lowercased
extension stripped of dots, validated by the `assert` against
`('csv', 'ini', 'json', 'txt', '', 'yaml')`.  With an explicit `ftype`
argument the code never assigns `self.ftype`, so the `assert`'s read of
`self.ftype` raises `AttributeError` — for supported and unsupported
overrides alike. -/
def TextFile_init (fname : String) (ftype : Option String) :
    Except Err (String × String) :=
  match ftype with
  | Option.none =>
    let ft := lowerString (stripDots (splitextExt fname))
    if ft = "csv" ∨ ft = "ini" ∨ ft = "json" ∨ ft = "txt" ∨ ft = "" ∨ ft = "yaml" then
      .ok (fname, ft)
    else
      .error (.assertionError ("Unsupported file type: " ++ ft))
  | some _ => .error .attributeError

/-! ## `TextFile.read` and `TextFile.write` -/

/-- `TextFile.read`: the file must exist (`assert os.path.isfile`, message
`"File not found: ..."`), then the content is parsed according to the
resolved format; an unrecognized format yields `None`. -/
def TFread (L : ExtLibs) (ftype fname : String) (file : Option String) :
    Except Err PyVal :=
  match file with
  | Option.none => .error (.assertionError ("File not found: " ++ fname))
  | some content =>
    if ftype = "csv" then
      .ok (.list (PyList.ofList ((read_csv content).map
        (fun r => .dict (PyDict.ofList (r.map (fun kv => (kv.1, .str kv.2))))))))
    else if ftype = "ini" then
      .ok (.dict (PyDict.ofList ((read_ini L.litEval (L.iniParse content)).map
        (fun sk => (sk.1, .dict (PyDict.ofList sk.2))))))
    else if ftype = "json" then L.jsonLoad content
    else if ftype = "txt" ∨ ftype = "" then .ok (.str content)
    else if ftype = "yaml" then L.yamlLoad content
    else .ok .none

/-- `confirm_yn_n`: read replies until one is `y`/`Y` (true) or `n`/`N`/empty
(false), re-prompting otherwise.  The input stream is explicit; `none`
means every available reply was invalid and the loop is still running.
The returned list is the unconsumed input. -/
def confirm_yn_n : List String → Option (Bool × List String)
  | [] => Option.none
  | s :: rest =>
    if s = "y" ∨ s = "Y" then some (true, rest)
    else if s = "n" ∨ s = "N" ∨ s = "" then some (false, rest)
    else confirm_yn_n rest

/-- The format dispatch of `TextFile.write` (the code after the overwrite
check): serialize `fdata` for the resolved format.  An unrecognized format
falls back to text with a warning on stderr. -/
def serializeFor (ftype : String) (fdata : PyVal) : Except Err String :=
  if ftype = "csv" then write_csv fdata
  else if ftype = "ini" then write_ini fdata
  else if ftype = "json" then .ok (jsonDump 0 fdata)
  else if ftype = "txt" ∨ ftype = "" then .ok (pyStr fdata)
  else if ftype = "yaml" then .ok (yamlDump fdata)
  else .ok (pyStr fdata)

/-- A completed (non-cancelled) write: the new file content and
`os.path.getsize` — its size in bytes. -/
def performWrite (ftype : String) (fdata : PyVal) : Except Err (Nat × Option String) :=
  (serializeFor ftype fdata).map (fun c => (c.utf8ByteSize, some c))

/-- `TextFile.write`.  `st` is the current file content at the path (`none`
when `os.path.isfile` is false), `stdin` the pending console replies.  When
the file exists and `force` is falsy the overwrite prompt runs: a declined
prompt returns `0` bytes and leaves the file untouched.  The overall
`none` means the prompt loop is still awaiting a valid reply; otherwise the
result is paired with the unconsumed input. -/
def TFwrite (ftype : String) (st : Option String) (fdata : PyVal) (force : Bool)
    (stdin : List String) : Option (Except Err (Nat × Option String) × List String) :=
  if st.isSome && !force then
    match confirm_yn_n stdin with
    | Option.none => Option.none
    | some (true, rest) => some (performWrite ftype fdata, rest)
    | some (false, rest) => some (.ok (0, st), rest)
  else some (performWrite ftype fdata, stdin)

/-- The concrete payload of C5:
`[{"a":1,"b":2,"c":3},{"a":11,"b":12,"c":13}]`. -/
def payloadC5 : PyVal :=
  .list (PyList.ofList
    [.dict (PyDict.ofList [("a", .int 1), ("b", .int 2), ("c", .int 3)]),
     .dict (PyDict.ofList [("a", .int 11), ("b", .int 12), ("c", .int 13)])])

/-- A reply `confirm_yn_n` accepts. -/
def isValidReply (s : String) : Bool :=
  s == "y" || s == "Y" || s == "n" || s == "N" || s == ""

/-- The `"Thanksgiving"` entry read by `is_eoy` is the one stored in the
`holidays` table. -/
theorem holidays_lookup_thanksgiving (y : Nat) :
    (holidays y).lookup "Thanksgiving" = some (get_nth_day "Thursday" 4 y 11) := by
  have h : ("Thanksgiving" == "New Year" ++ apos ++ "s Day") = false := by decide
  simp [holidays, List.lookup, h]

/-- Sanity check against `tests/test_moratorium.py`: Thanksgiving 2018 is
November 22, day-of-year 326. -/
theorem get_nth_day_thanksgiving_2018 :
    get_nth_day "Thursday" 4 2018 11 = some 326 := by
  decide

/-- Sanity check against `tests/test_moratorium.py`: `make_day_julian` on
2018-11-22 gives 326. -/
theorem make_day_julian_2018_11_22 : make_day_julian 2018 11 22 = 326 := by
  decide

/-! ## Claims -/

/-- C1: for every existing file (any format, any current content) and every
payload, `write(data)` without `force` whose overwrite prompt is answered
`"n"`, `"N"` or `""` returns `0` bytes written and leaves the file content
exactly as it was, consuming only that one reply — a normal cancellation,
not an error. -/
theorem write_declined_is_noop (ftype old : String) (fdata : PyVal) (r : String)
    (rest : List String) (h : r = "n" ∨ r = "N" ∨ r = "") :
    TFwrite ftype (some old) fdata false (r :: rest) =
      some (.ok (0, some old), rest) := by
  rcases h with h | h | h <;> subst h <;> rfl

/-- Witness for C1: declining with the empty reply on a text file. -/
theorem write_declined_is_noop_witness :
    ("" = "n" ∨ "" = "N" ∨ "" = "") ∧
      TFwrite "txt" (some "old content") (.str "new") false ["", "next"] =
        some (.ok (0, some "old content"), ["next"]) :=
  ⟨by decide, write_declined_is_noop "txt" "old content" (.str "new") "" ["next"]
    (by decide)⟩

/-- C2 (code bug): with an explicit format override, `__init__` never
assigns `self.ftype`, so the `assert` raises `AttributeError` for every
override — supported tokens like `"json"` and unsupported ones like
`"bogus"` alike — instead of resolving the handle's format to the override;
only extension inference (override absent) reaches the documented
unsupported-format check. -/
theorem init_override_raises_attribute_error :
    TextFile_init "file.txt" (some "bogus") = .error .attributeError ∧
    TextFile_init "file.txt" (some "json") = .error .attributeError ∧
    TextFile_init "file.csv" Option.none = .ok ("file.csv", "csv") ∧
    TextFile_init "file.bogus" Option.none =
      .error (.assertionError "Unsupported file type: bogus") := by
  refine ⟨rfl, rfl, ?_, ?_⟩ <;> decide

/-- C4: reading a handle whose path has no existing regular file fails with
the file-not-found error for every resolved format and for every behavior
of the external parsers — no format-specific parsing is reached. -/
theorem read_missing_file_fails (L : ExtLibs) (ftype fname : String) :
    TFread L ftype fname Option.none =
      .error (.assertionError ("File not found: " ++ fname)) := rfl

/-- C5: writing `[{"a":1,"b":2,"c":3},{"a":11,"b":12,"c":13}]` as CSV and
reading the written content back yields exactly two records in the same
order, each with exactly the keys `a`, `b`, `c`, every value read back as
its decimal string form. -/
theorem csv_roundtrip_concrete :
    (write_csv payloadC5).map read_csv =
      .ok [[("a", "1"), ("b", "2"), ("c", "3")],
           [("a", "11"), ("b", "12"), ("c", "13")]] := by decide

/-- C9: when the path has no existing file, `write` never consults the
overwrite prompt and proceeds with the write unconditionally: for every
format, payload, `force` value and input stream, the result is the
dispatched write and the input stream is returned unconsumed. -/
theorem write_no_file_never_prompts (ftype : String) (fdata : PyVal) (force : Bool)
    (stdin : List String) :
    TFwrite ftype Option.none fdata force stdin =
      some (performWrite ftype fdata, stdin) := by
  simp [TFwrite]

/-- C10: `is_holiday` classifies a date only by its day-of-year number
against the `this_year` holiday table: two dates with equal day-of-year get
the same answer, whatever their years. -/
theorem is_holiday_ignores_year (this_year y₁ m₁ d₁ y₂ m₂ d₂ : Nat)
    (h : dayOfYear y₁ m₁ d₁ = dayOfYear y₂ m₂ d₂) :
    is_holiday this_year y₁ m₁ d₁ = is_holiday this_year y₂ m₂ d₂ := by
  simp only [is_holiday, h]

/-- Witness for C10: March 1 of leap-year 2020 and March 2 of 2019 share
day-of-year 61 and are classified alike by the 2025 table. -/
theorem is_holiday_ignores_year_witness :
    dayOfYear 2020 3 1 = dayOfYear 2019 3 2 ∧
      is_holiday 2025 2020 3 1 = is_holiday 2025 2019 3 2 :=
  ⟨by decide, is_holiday_ignores_year 2025 2020 3 1 2019 3 2 (by decide)⟩

/-- An invalid reply is skipped with a re-prompt. -/
theorem confirm_skip (t : String) (l : List String) (h : isValidReply t = false) :
    confirm_yn_n (t :: l) = confirm_yn_n l := by
  simp only [isValidReply, Bool.or_eq_false_iff, beq_eq_false_iff_ne, ne_eq] at h
  obtain ⟨⟨⟨⟨h1, h2⟩, h3⟩, h4⟩, h5⟩ := h
  simp [confirm_yn_n, h1, h2, h3, h4, h5]

/-- The first valid reply decides the result: true for `y`/`Y`, false for
`n`/`N`/empty. -/
theorem confirm_first_valid (s : String) (rest : List String)
    (h : isValidReply s = true) :
    confirm_yn_n (s :: rest) = some (decide (s = "y" ∨ s = "Y"), rest) := by
  simp only [isValidReply, Bool.or_eq_true, beq_iff_eq] at h
  rcases h with ((((h | h) | h) | h) | h) <;> subst h <;> rfl

/-- C3: `confirm_yn_n` skips every invalid reply without returning, and
returns on the first reply drawn from `{y, Y, n, N, ""}`: true exactly when
it is `y`/`Y`, false exactly when it is `n`/`N`/empty.  With only invalid
replies available the loop has not returned (`none`: it is still
re-prompting). -/
theorem confirm_yn_n_spec (pre : List String)
    (h : ∀ t ∈ pre, isValidReply t = false) :
    confirm_yn_n pre = Option.none ∧
    ∀ s rest, isValidReply s = true →
      confirm_yn_n (pre ++ s :: rest) = some (decide (s = "y" ∨ s = "Y"), rest) := by
  induction pre with
  | nil => exact ⟨rfl, fun s rest hs => confirm_first_valid s rest hs⟩
  | cons t l ih =>
    have ht := h t (by simp)
    have hl : ∀ x ∈ l, isValidReply x = false := fun x hx => h x (by simp [hx])
    obtain ⟨ih1, ih2⟩ := ih hl
    refine ⟨?_, ?_⟩
    · rw [confirm_skip t l ht]; exact ih1
    · intro s rest hs
      rw [List.cons_append, confirm_skip t _ ht]
      exact ih2 s rest hs

/-- Witness for C3: after the invalid reply `"maybe"` the loop is still
running, and a following `"n"` resolves it to false. -/
theorem confirm_yn_n_spec_witness :
    isValidReply "maybe" = false ∧ confirm_yn_n ["maybe"] = Option.none ∧
      confirm_yn_n ["maybe", "n"] = some (false, []) :=
  ⟨by decide, (confirm_yn_n_spec ["maybe"] (by decide)).1,
    (confirm_yn_n_spec ["maybe"] (by decide)).2 "n" [] (by decide)⟩

/-- Looking a key up after mapping the values of an association list. -/
theorem lookup_map_values {β γ : Type} (f : β → γ) :
    ∀ (l : List (String × β)) (a : String),
      (l.map (fun p => (p.1, f p.2))).lookup a = (l.lookup a).map f := by
  intro l a
  induction l with
  | nil => rfl
  | cons p tl ih =>
    rcases p with ⟨k, b⟩
    by_cases h : a = k
    · subst h; simp [List.lookup, ih]
    · have hb : (a == k) = false := by simp [h]
      simp [List.lookup, hb, ih]

/-- C6: for every ini file read (any `configparser` output) and every
`(section, key, value)` triple it contains, the result maps the section and
key to the value parsed by `ast.literal_eval` when that succeeds and to the
original unmodified string when it fails with a syntax or value error
(`lit _ = none`); `read_ini` is total, so no coercion failure reaches the
caller. -/
theorem read_ini_coerces_values (lit : String → Option PyVal)
    (sections : List (String × List (String × String)))
    (sec : String) (kvs : List (String × String)) (k v : String)
    (hsec : sections.lookup sec = some kvs) (hk : kvs.lookup k = some v) :
    ∃ kvs', (read_ini lit sections).lookup sec = some kvs' ∧
      kvs'.lookup k =
        some (match lit v with | some x => x | Option.none => PyVal.str v) := by
  refine ⟨kvs.map (fun kv => (kv.1, coerceValue lit kv.2)), ?_, ?_⟩
  · have h1 := lookup_map_values
      (fun s2 : List (String × String) => s2.map (fun kv => (kv.1, coerceValue lit kv.2)))
      sections sec
    rw [hsec] at h1
    exact h1
  · have h2 := lookup_map_values (fun v0 : String => coerceValue lit v0) kvs k
    rw [hk] at h2
    exact h2

/-- Witness for C6: a two-entry section where `"7"` parses as the integer 7
and `"hello"` fails to parse and stays a string. -/
theorem read_ini_coerces_values_witness :
    ([("sec", [("num", "7"), ("word", "hello")])] :
        List (String × List (String × String))).lookup "sec" =
      some [("num", "7"), ("word", "hello")] ∧
    ([("num", "7"), ("word", "hello")] :
        List (String × String)).lookup "num" = some "7" ∧
    ∃ kvs', (read_ini (fun s => if s = "7" then some (.int 7) else Option.none)
        [("sec", [("num", "7"), ("word", "hello")])]).lookup "sec" = some kvs' ∧
      kvs'.lookup "num" =
        some (match (if ("7" : String) = "7" then some (PyVal.int 7) else Option.none) with
              | some x => x
              | Option.none => PyVal.str "7") :=
  ⟨rfl, rfl,
    read_ini_coerces_values (fun s => if s = "7" then some (.int 7) else Option.none)
      [("sec", [("num", "7"), ("word", "hello")])] "sec"
      [("num", "7"), ("word", "hello")] "num" "7" rfl rfl⟩

/-- `String.join` of a cons. -/
theorem string_join_cons (s : String) (l : List String) :
    String.join (s :: l) = s ++ String.join l := by
  rcases s with ⟨cs⟩
  rw [String.join_eq, String.join_eq]
  rfl

/-- C7 counterexample: writing `[{"a": 1}, {"b": 2}]` as CSV does not
complete — the second record's key `b` is outside the first record's keys
and the underlying writer raises `ValueError`. -/
theorem write_csv_extra_key_raises :
    write_csv (.list (PyList.ofList
      [.dict (PyDict.ofList [("a", .int 1)]), .dict (PyDict.ofList [("b", .int 2)])])) =
      .error (.valueError "dict contains fields not in fieldnames: b") := by
  decide

/-- A record whose keys all occur among the field names serializes without
error, with the rest value (empty cell) for each missing key. -/
theorem dict_to_list_subset (fieldnames : List String) (r : PyDict)
    (h : ∀ k ∈ r.keys, k ∈ fieldnames) :
    dict_to_list fieldnames r = .ok (fieldnames.map (fun k => cellStr (r.lookup k))) := by
  have hw : r.keys.filter (fun k => !(fieldnames.contains k)) = [] :=
    List.filter_eq_nil_iff.mpr (fun a ha => by simp [h a ha])
  simp only [dict_to_list, hw, List.isEmpty_nil, if_true]

/-- `writerows` over records whose keys all occur among the field names. -/
theorem rowsToCsv_subset (fieldnames : List String) (rs : List PyDict)
    (h : ∀ r ∈ rs, ∀ k ∈ PyDict.keys r, k ∈ fieldnames) :
    rowsToCsv fieldnames (PyList.ofList (rs.map PyVal.dict)) =
      .ok (String.join (rs.map
        (fun r => csvLine (fieldnames.map (fun k => cellStr (r.lookup k))) ++ "\n"))) := by
  induction rs with
  | nil => rfl
  | cons r tl ih =>
    have h1 := dict_to_list_subset fieldnames r (h r (by simp))
    have h2 := ih (fun x hx => h x (by simp [hx]))
    simp only [List.map_cons, PyList.ofList, rowsToCsv, h1, h2, Except.map,
      string_join_cons]

/-- C7 (amended): for every non-empty list of dictionaries written as CSV,
the header column order is the key-insertion order of the first record, and
when later records only omit some of the first record's keys the write
completes, filling the missing cells with the empty rest value; but a later
record holding a key absent from the first record's keys makes the write
fail with `ValueError` instead of completing. -/
theorem write_csv_header_and_cells (first : PyDict) (rest : List PyDict)
    (h : ∀ r ∈ rest, ∀ k ∈ PyDict.keys r, k ∈ first.keys) :
    write_csv (.list (PyList.ofList (PyVal.dict first :: rest.map PyVal.dict))) =
      .ok (csvLine first.keys ++ "\n" ++
        String.join ((first :: rest).map
          (fun r => csvLine (first.keys.map (fun k => cellStr (r.lookup k))) ++ "\n"))) := by
  have hall : ∀ r ∈ first :: rest, ∀ k ∈ PyDict.keys r, k ∈ first.keys := by
    intro r hr
    rcases List.mem_cons.mp hr with h0 | h0
    · subst h0; exact fun k hk => hk
    · exact h r h0
  have hrows := rowsToCsv_subset first.keys (first :: rest) hall
  calc write_csv (.list (PyList.ofList (PyVal.dict first :: rest.map PyVal.dict)))
      = (rowsToCsv first.keys (PyList.ofList (PyVal.dict first :: rest.map PyVal.dict))).map
          (fun body => csvLine first.keys ++ "\n" ++ body) := rfl
    _ = _ := by
        rw [show PyVal.dict first :: rest.map PyVal.dict = (first :: rest).map PyVal.dict
          from rfl, hrows]
        rfl

/-- Witness for C7 (amended): first record `{"a": 1, "b": 2}`, second
record `{"a": 3}` missing key `b` — the write completes with an empty cell. -/
theorem write_csv_header_and_cells_witness :
    (∀ r ∈ [PyDict.ofList [("a", PyVal.int 3)]], ∀ k ∈ PyDict.keys r,
      k ∈ PyDict.keys (PyDict.ofList [("a", PyVal.int 1), ("b", PyVal.int 2)])) ∧
    write_csv (.list (PyList.ofList
      [.dict (PyDict.ofList [("a", PyVal.int 1), ("b", PyVal.int 2)]),
       .dict (PyDict.ofList [("a", PyVal.int 3)])])) = .ok "a,b\n1,2\n3,\n" :=
  ⟨by decide,
    (write_csv_header_and_cells (PyDict.ofList [("a", PyVal.int 1), ("b", PyVal.int 2)])
      [PyDict.ofList [("a", PyVal.int 3)]] (by decide)).trans (by decide)⟩

/-- C8: for every date of the year the holiday table was computed for,
`is_eoy` is true exactly from the Thanksgiving entry's day-of-year — the
4th Thursday of November found by `get_nth_day` — through December 31, and
false exactly before it. -/
theorem is_eoy_from_thanksgiving (Y m d thx : Nat) (_hv : validDate Y m d)
    (hthx : get_nth_day "Thursday" 4 Y 11 = some thx) :
    (is_eoy Y Y m d = some true ↔ thx ≤ dayOfYear Y m d) ∧
    (is_eoy Y Y m d = some false ↔ dayOfYear Y m d < thx) := by
  unfold is_eoy
  rw [hthx]
  constructor
  · simp [decide_eq_true_eq]
  · simp [decide_eq_false_iff_not, Nat.not_le]

/-- Witness for C8 on Thanksgiving 2018 itself (November 22, day 326). -/
theorem is_eoy_from_thanksgiving_witness :
    validDate 2018 11 22 ∧ get_nth_day "Thursday" 4 2018 11 = some 326 ∧
    ((is_eoy 2018 2018 11 22 = some true ↔ 326 ≤ dayOfYear 2018 11 22) ∧
     (is_eoy 2018 2018 11 22 = some false ↔ dayOfYear 2018 11 22 < 326)) :=
  ⟨by decide, by decide,
    is_eoy_from_thanksgiving 2018 11 22 326 (by decide) (by decide)⟩

end Yoots
